import Mathlib

/-
  Shallow embedding of StarryPy3k's plugins/player_manager.py:
  the role hierarchy, the Player/Planet stores kept in the shelf,
  the connection-state machine, and the PlayerManager event handlers.

  Python object references to Player records are modelled as keys into
  the `players` association list (the shelf namespace), so that aliasing
  between `protocol.player` and `shelf['players'][str(uuid)]` is explicit:
  mutating an attribute of the referenced player is an update of the store
  entry at that key.  Python `bytes` uuids are modelled as the ascii
  `String` they decode to; `str(uuid)`, the shelf key, is then a fixed
  injective function of the uuid and is modelled as the uuid string itself.
-/

set_option autoImplicit false

namespace StarryPy3k

/-- The role classes declared in player_manager.py:
Owner, SuperAdmin(Owner), Admin(SuperAdmin), Moderator(Admin),
Guest(Moderator), Ban(Moderator), Kick(Moderator). -/
inductive RoleName where
  | Owner
  | SuperAdmin
  | Admin
  | Moderator
  | Guest
  | Ban
  | Kick
  deriving DecidableEq

/-- The declared base class of each role class (None for Owner, the root). -/
def RoleName.parent : RoleName → Option RoleName
  | .Owner => none
  | .SuperAdmin => some .Owner
  | .Admin => some .SuperAdmin
  | .Moderator => some .Admin
  | .Guest => some .Moderator
  | .Ban => some .Moderator
  | .Kick => some .Moderator

/-- The chain of a role and its ancestors, following `parent` with fuel. -/
def RoleName.ancestorsAux : Nat → Option RoleName → List RoleName
  | 0, _ => []
  | _, none => []
  | n + 1, some r => r :: RoleName.ancestorsAux n r.parent

def RoleName.ancestors (r : RoleName) : List RoleName :=
  RoleName.ancestorsAux 7 (some r)

/-- Modelled from the spec: the `implies` query of base_plugin.Role (the
Role machinery lives in base_plugin.py, which is not part of src/):
true iff `target` is `role` or a descendant of `role` in the fixed tree
given by the class declarations above. -/
def implies (role target : RoleName) : Bool :=
  role ∈ target.ancestors

/-- The `__name__` of a role class. -/
def RoleName.pyName : RoleName → String
  | .Owner => "Owner"
  | .SuperAdmin => "SuperAdmin"
  | .Admin => "Admin"
  | .Moderator => "Moderator"
  | .Guest => "Guest"
  | .Ban => "Ban"
  | .Kick => "Kick"

/-- Modelled from the spec: `x.__name__ for x in Owner.roles`, where
`Owner.roles` (from base_plugin.py, not in src/) is every role in the
tree — the spec's `ownerRoles()` returns the full set of role names. -/
def ownerRolesFinset : Finset String :=
  (["Owner", "SuperAdmin", "Admin", "Moderator", "Guest", "Ban", "Kick"] :
    List String).toFinset

/-- The Player record of player_manager.py.  `protocol` is the
back-reference to the bound connection (None when unbound), modelled as
the connection's numeric id. -/
structure Player where
  uuid : String
  name : String
  last_seen : Nat
  roles : Finset String
  logged_in : Bool
  protocol : Option Nat
  client_id : Int
  ip : String
  planet : String
  on_ship : Bool
  muted : Bool
  deriving DecidableEq

/-- Every field of a Player except `roles` (which owner elevation mutates
in place on the same record). -/
def Player.core (p : Player) :
    String × String × Nat × Bool × Option Nat × Int × String × String ×
    Bool × Bool :=
  (p.uuid, p.name, p.last_seen, p.logged_in, p.protocol, p.client_id,
   p.ip, p.planet, p.on_ship, p.muted)

/-- The keyword arguments of add_or_get_player other than the uuid, with
the Python defaults supplied by the caller (`none` stands for Python's
None defaults of last_seen and roles). -/
structure CallArgs where
  name : String
  last_seen : Option Nat
  roles : Option (Finset String)
  logged_in : Bool
  protocol : Option Nat
  client_id : Int
  ip : String
  planet : String
  on_ship : Bool
  muted : Bool
  deriving DecidableEq

/-- Player.__init__: last_seen defaults to now, roles to the empty set. -/
def mkPlayer (now : Nat) (uuid : String) (a : CallArgs) : Player :=
  { uuid := uuid
    name := a.name
    last_seen := a.last_seen.getD now
    roles := a.roles.getD ∅
    logged_in := a.logged_in
    protocol := a.protocol
    client_id := a.client_id
    ip := a.ip
    planet := a.planet
    on_ship := a.on_ship
    muted := a.muted }

/-- The shelf's `players` namespace: an insertion-ordered dict from the
uuid key to the Player record. -/
abbrev PStore := List (String × Player)

/-- Dict lookup: the value stored at the key, if any. -/
def lookupP : PStore → String → Option Player
  | [], _ => none
  | e :: rest, k => if e.1 == k then some e.2 else lookupP rest k

/-- Attribute mutation of the record the key refers to. -/
def updateF : PStore → String → (Player → Player) → PStore
  | [], _, _ => []
  | e :: rest, k, f =>
      (if e.1 == k then (e.1, f e.2) else e) :: updateF rest k f

/-- Dict assignment at an existing key: replace in place, keep order. -/
def updateP (players : PStore) (k : String) (p : Player) : PStore :=
  updateF players k (fun _ => p)

/-- How many entries sit under the key. -/
def countKey : PStore → String → Nat
  | [], _ => 0
  | e :: rest, k => (if e.1 == k then 1 else 0) + countKey rest k

/-- add_or_get_player: return the existing record for the uuid if present
(re-applying owner elevation to it), else create a new Player (seeding
owner roles when the uuid matches the configured owner uuid) and insert
it under the uuid key. -/
def add_or_get_player (cfg_owner_uuid : String) (now : Nat)
    (players : PStore) (uuid : String) (a : CallArgs) : Player × PStore :=
  match lookupP players uuid with
  | some p =>
      if uuid == cfg_owner_uuid then
        let p' := { p with roles := ownerRolesFinset }
        (p', updateP players uuid p')
      else
        (p, players)
  | none =>
      let rs := if uuid == cfg_owner_uuid then some ownerRolesFinset
                else a.roles
      let np := mkPlayer now uuid { a with roles := rs }
      (np, players ++ [(uuid, np)])

/-- A sequence of add_or_get_player calls sharing one uuid; returns the
list of returned players and the final store. -/
def runCalls (cfg_owner_uuid : String) (now : Nat) (uuid : String) :
    PStore → List CallArgs → List Player × PStore
  | players, [] => ([], players)
  | players, a :: rest =>
      let pr := add_or_get_player cfg_owner_uuid now players uuid a
      let next := runCalls cfg_owner_uuid now uuid pr.2 rest
      (pr.1 :: next.1, next.2)

/-- The Planet record: `self.a, self.x, self.y = location`. -/
structure Planet where
  sector : String
  a : Int
  x : Int
  y : Int
  planet : Int
  satellite : Int
  deriving DecidableEq

/-- Planet.__str__, the canonical key
`"%s:%d:%d:%d:%d:%d" % (sector, a, x, y, planet, satellite)`. -/
def planetStr (p : Planet) : String :=
  p.sector ++ ":" ++ toString p.a ++ ":" ++ toString p.x ++ ":" ++
    toString p.y ++ ":" ++ toString p.planet ++ ":" ++ toString p.satellite

/-- The shelf's `planets` namespace. -/
abbrev PlStore := List (String × Planet)

def lookupPl (planets : PlStore) (k : String) : Option Planet :=
  (planets.find? (fun e => e.1 == k)).map Prod.snd

/-- add_or_get_planet: build the canonical loc_string key, return the
existing record if present, else construct a Planet and store it under
`str(planet)` (which equals loc_string, being built from the same
fields). -/
def add_or_get_planet (planets : PlStore) (sector : String)
    (location : Int × Int × Int) (planetIdx satellite : Int) :
    Planet × PlStore :=
  let a := location.1
  let x := location.2.1
  let y := location.2.2
  let loc_string := sector ++ ":" ++ toString a ++ ":" ++ toString x ++
    ":" ++ toString y ++ ":" ++ toString planetIdx ++ ":" ++
    toString satellite
  match lookupPl planets loc_string with
  | some pl => (pl, planets)
  | none =>
      let pl : Planet :=
        { sector := sector, a := a, x := x, y := y, planet := planetIdx,
          satellite := satellite }
      (pl, planets ++ [(planetStr pl, pl)])

/-- Python str.lower() on the ascii names used here. -/
def strLower (s : String) : String :=
  ⟨s.data.map Char.toLower⟩

/-- get_player_by_name: first player (store iteration order) whose name
matches case-insensitively; when check_logged_in, a matching record with
logged_in = false is skipped and the scan continues. -/
def get_player_by_name (players : PStore) (name : String)
    (check_logged_in : Bool) : Option Player :=
  let lname := strLower name
  (players.map Prod.snd).find?
    (fun p => strLower p.name == lname && (!check_logged_in || p.logged_in))

/-- The observable outcome of the kick command body: either the found
target's protocol is told to die and a broadcast names issuer and target,
or a private not-found reply goes to the issuer; `attrError` is the
AttributeError raised when the found target's protocol is None
(None.die()). -/
inductive KickOutcome where
  | dieAndBroadcast (targetProtocol : Nat) (issuerName targetName : String)
  | notFoundReply (name : String)
  | attrError
  deriving DecidableEq

/-- The kick command: looks the target up with
`get_player_by_name(" ".join(data))` — check_logged_in left at its
default False. -/
def kick (players : PStore) (issuerName : String) (data : List String) :
    KickOutcome :=
  let name := String.intercalate " " data
  match get_player_by_name players name false with
  | some p =>
      match p.protocol with
      | some pid => .dieAndBroadcast pid issuerName p.name
      | none => .attrError
  | none => .notFoundReply name

/-- The State IntEnum values; connection state is stored as a raw value
(on_heartbeat assigns the literal 6). -/
def State.VERSION_SENT : Nat := 0
def State.CLIENT_CONNECT_RECEIVED : Nat := 1
def State.HANDSHAKE_CHALLENGE_SENT : Nat := 2
def State.HANDSHAKE_RESPONSE_RECEIVED : Nat := 3
def State.CONNECT_RESPONSE_SENT : Nat := 4
def State.CONNECTED : Nat := 5
def State.CONNECTED_WITH_HEARTBEAT : Nat := 6

/-- The shared durable shelf contents the handlers touch. -/
structure WorldState where
  players : PStore
  planets : PlStore
  deriving DecidableEq

/-- The per-connection protocol object: its handshake state (absent
initially) and its bound player, a reference into the players store. -/
structure Protocol where
  id : Nat
  state : Option Nat
  playerKey : Option String
  deriving DecidableEq

/-- What a handler leaves behind, plus its return value. -/
structure HandlerResult where
  ws : WorldState
  proto : Protocol
  ok : Bool
  deriving DecidableEq

def on_protocol_version (ws : WorldState) (proto : Protocol) :
    HandlerResult :=
  ⟨ws, { proto with state := some State.VERSION_SENT }, true⟩

def on_handshake_challenge (ws : WorldState) (proto : Protocol) :
    HandlerResult :=
  ⟨ws, { proto with state := some State.HANDSHAKE_CHALLENGE_SENT }, true⟩

def on_handshake_response (ws : WorldState) (proto : Protocol) :
    HandlerResult :=
  ⟨ws, { proto with state := some State.HANDSHAKE_RESPONSE_RECEIVED }, true⟩

/-- The parsed connect-response payload. -/
structure ConnectResponse where
  success : Bool
  client_id : Int
  deriving DecidableEq

/-- on_connect_response: on success set the bound player logged_in,
client_id and back-reference and advance the state to CONNECTED; on
failure reset logged_in and client_id and leave the protocol untouched.
`none` is the AttributeError when no player is bound. -/
def on_connect_response (resp : ConnectResponse) (ws : WorldState)
    (proto : Protocol) : Option HandlerResult :=
  match proto.playerKey with
  | none => none
  | some k =>
      if resp.success then
        some ⟨{ ws with players := updateF ws.players k (fun p =>
                  { p with logged_in := true, client_id := resp.client_id,
                           protocol := some proto.id }) },
              { proto with state := some State.CONNECTED }, true⟩
      else
        some ⟨{ ws with players := updateF ws.players k (fun p =>
                  { p with logged_in := false, client_id := -1 }) },
              proto, true⟩

/-- on_client_connect: get or create the player from the parsed payload
and bind it to the connection (protocol.player = player). -/
def on_client_connect (cfg_owner_uuid : String) (now : Nat)
    (uuid : String) (a : CallArgs) (ws : WorldState) (proto : Protocol) :
    HandlerResult :=
  let pr := add_or_get_player cfg_owner_uuid now ws.players uuid a
  ⟨{ ws with players := pr.2 }, { proto with playerKey := some uuid }, true⟩

/-- on_client_disconnect: clear the bound player's back-reference and
logged_in flag.  `none` is the AttributeError when no player is bound. -/
def on_client_disconnect (ws : WorldState) (proto : Protocol) :
    Option HandlerResult :=
  match proto.playerKey with
  | none => none
  | some k =>
      some ⟨{ ws with players := updateF ws.players k (fun p =>
                { p with protocol := none, logged_in := false }) },
            proto, true⟩

/-- on_server_disconnect: identical body to on_client_disconnect. -/
def on_server_disconnect (ws : WorldState) (proto : Protocol) :
    Option HandlerResult :=
  match proto.playerKey with
  | none => none
  | some k =>
      some ⟨{ ws with players := updateF ws.players k (fun p =>
                { p with protocol := none, logged_in := false }) },
            proto, true⟩

def on_warp_command (ws : WorldState) (proto : Protocol) : HandlerResult :=
  ⟨ws, proto, true⟩

/-- The coordinate dict of a world-start payload's celestialParameters. -/
structure Coordinate where
  sector : String
  location : Int × Int × Int
  planet : Int
  satellite : Int
  deriving DecidableEq

/-- on_world_start: with celestial coordinates, get-or-create the planet
and log it (str of the Planet); otherwise set the bound player's on_ship
and log "on ship".  The third component is the logged location string.
`none` is the AttributeError when the ship branch finds no bound
player. -/
def on_world_start (celestial : Option Coordinate) (ws : WorldState)
    (proto : Protocol) : Option (WorldState × Protocol × String × Bool) :=
  match celestial with
  | some c =>
      let pr := add_or_get_planet ws.planets c.sector c.location c.planet
        c.satellite
      some ({ ws with planets := pr.2 }, proto, planetStr pr.1, true)
  | none =>
      match proto.playerKey with
      | none => none
      | some k =>
          some ({ ws with players := updateF ws.players k (fun p =>
                    { p with on_ship := true }) },
                proto, "on ship", true)

/-- on_heartbeat: `protocol.state = 6`. -/
def on_heartbeat (ws : WorldState) (proto : Protocol) : HandlerResult :=
  ⟨ws, { proto with state := some 6 }, true⟩

/-- A concrete logged-out player record, as left by a disconnect
handler: logged_in false, protocol back-reference cleared. -/
def bobOffline : Player :=
  { uuid := "u1", name := "Bob", last_seen := 0, roles := ∅,
    logged_in := false, protocol := none, client_id := -1,
    ip := "0.0.0.0", planet := "", on_ship := true, muted := false }

theorem lookupP_updateF (players : PStore) (k : String)
    (f : Player → Player) :
    lookupP (updateF players k f) k = (lookupP players k).map f := by
  induction players with
  | nil => rfl
  | cons e rest ih =>
      cases hb : (e.1 == k)
      · simpa [lookupP, updateF, hb] using ih
      · simp [lookupP, updateF, hb]

theorem countKey_updateF (players : PStore) (k : String)
    (f : Player → Player) :
    countKey (updateF players k f) k = countKey players k := by
  induction players with
  | nil => rfl
  | cons e rest ih =>
      cases hb : (e.1 == k)
      · simpa [countKey, updateF, hb] using ih
      · simpa [countKey, updateF, hb] using ih

theorem lookupP_append_none (players : PStore) (k : String) (p : Player)
    (h : lookupP players k = none) :
    lookupP (players ++ [(k, p)]) k = some p := by
  induction players with
  | nil => simp [lookupP]
  | cons e rest ih =>
      cases hb : (e.1 == k)
      · simp only [lookupP, hb] at h
        simpa [lookupP, hb] using ih h
      · simp [lookupP, hb] at h

theorem countKey_append_self (players : PStore) (k : String) (p : Player) :
    countKey (players ++ [(k, p)]) k = countKey players k + 1 := by
  induction players with
  | nil => simp [countKey]
  | cons e rest ih =>
      cases hb : (e.1 == k)
      · simpa [countKey, hb] using ih
      · simp [countKey, hb, ih]
        omega

theorem countKey_eq_zero_of_lookup_none (players : PStore) (k : String)
    (h : lookupP players k = none) :
    countKey players k = 0 := by
  induction players with
  | nil => rfl
  | cons e rest ih =>
      cases hb : (e.1 == k)
      · simp only [lookupP, hb] at h
        simpa [countKey, hb] using ih h
      · simp [lookupP, hb] at h

/-- A call that finds an existing record returns it (owner elevation only
touches roles), stores it back under the same key, and never changes how
many records the uuid has. -/
theorem add_present (cfg : String) (now : Nat) (players : PStore)
    (uuid : String) (a : CallArgs) (p : Player)
    (h : lookupP players uuid = some p) :
    (add_or_get_player cfg now players uuid a).1.core = p.core ∧
    lookupP (add_or_get_player cfg now players uuid a).2 uuid =
      some (add_or_get_player cfg now players uuid a).1 ∧
    countKey (add_or_get_player cfg now players uuid a).2 uuid =
      countKey players uuid := by
  unfold add_or_get_player
  rw [h]
  by_cases hc : uuid = cfg
  · have hc' : (uuid == cfg) = true := beq_iff_eq.mpr hc
    simp only [hc', if_true]
    refine ⟨rfl, ?_, ?_⟩
    · rw [updateP, lookupP_updateF, h]
      rfl
    · rw [updateP, countKey_updateF]
  · have hc' : (uuid == cfg) = false := beq_eq_false_iff_ne.mpr hc
    simp only [hc', if_false]
    exact ⟨rfl, h, rfl⟩

/-- A call that finds no record inserts exactly one new record under the
uuid key and returns it. -/
theorem add_absent (cfg : String) (now : Nat) (players : PStore)
    (uuid : String) (a : CallArgs)
    (h : lookupP players uuid = none) :
    lookupP (add_or_get_player cfg now players uuid a).2 uuid =
      some (add_or_get_player cfg now players uuid a).1 ∧
    countKey (add_or_get_player cfg now players uuid a).2 uuid = 1 := by
  unfold add_or_get_player
  rw [h]
  refine ⟨lookupP_append_none _ _ _ h, ?_⟩
  rw [countKey_append_self, countKey_eq_zero_of_lookup_none _ _ h]

/-- Running any sequence of calls against a store that already holds a
record for the uuid: every returned player is that record (up to the
roles field owner elevation rewrites in place), the record stays stored,
and the number of records under the uuid never changes. -/
theorem runCalls_present (cfg : String) (now : Nat) (uuid : String)
    (args : List CallArgs) :
    ∀ (players : PStore) (p : Player), lookupP players uuid = some p →
      (∀ x ∈ (runCalls cfg now uuid players args).1, x.core = p.core) ∧
      (∃ q, lookupP (runCalls cfg now uuid players args).2 uuid = some q ∧
        q.core = p.core) ∧
      countKey (runCalls cfg now uuid players args).2 uuid =
        countKey players uuid := by
  induction args with
  | nil =>
      intro players p h
      exact ⟨by simp [runCalls], ⟨p, h, rfl⟩, rfl⟩
  | cons a rest ih =>
      intro players p h
      obtain ⟨hcore, hlook, hcount⟩ := add_present cfg now players uuid a p h
      obtain ⟨ih1, ⟨q, hq, hqcore⟩, ih3⟩ :=
        ih (add_or_get_player cfg now players uuid a).2
          (add_or_get_player cfg now players uuid a).1 hlook
      refine ⟨?_, ⟨q, ?_, ?_⟩, ?_⟩
      · intro x hx
        simp only [runCalls, List.mem_cons] at hx
        rcases hx with hx | hx
        · rw [hx, hcore]
        · rw [ih1 x hx, hcore]
      · simpa [runCalls] using hq
      · rw [hqcore, hcore]
      · simp only [runCalls]
        rw [ih3, hcount]

/-- Default keyword arguments of add_or_get_player (the Python
signature's defaults). -/
def argsDefault : CallArgs :=
  { name := "", last_seen := none, roles := none, logged_in := true,
    protocol := none, client_id := -1, ip := "0.0.0.0", planet := "",
    on_ship := true, muted := false }

/-- A second, distinct set of call arguments carrying a roles set. -/
def argsGuest : CallArgs :=
  { argsDefault with name := "Zed", roles := some {"Guest"} }

/-- C1: for a uuid equal to the configured owner uuid, add_or_get_player
returns a Player whose roles equal the full set of hierarchy role names,
for every roles argument and whether or not a record already existed. -/
theorem owner_uuid_always_full_roles (cfg : String) (now : Nat)
    (players : PStore) (uuid : String) (a : CallArgs)
    (h : uuid = cfg) :
    (add_or_get_player cfg now players uuid a).1.roles =
      ownerRolesFinset := by
  subst h
  unfold add_or_get_player
  cases hl : lookupP players uuid with
  | some p => simp
  | none => simp [mkPlayer]

/-- Witness for C1: concrete owner uuid, a supplied roles argument, and
an existing record in the store. -/
theorem owner_uuid_always_full_roles_witness :
    ("ouid" : String) = "ouid" ∧
    (add_or_get_player "ouid" 0 [("ouid", bobOffline)] "ouid"
      argsGuest).1.roles = ownerRolesFinset :=
  ⟨rfl, owner_uuid_always_full_roles "ouid" 0 [("ouid", bobOffline)]
    "ouid" argsGuest rfl⟩

/-- C2: any sequence of add_or_get_player calls sharing one uuid leaves
exactly one record under that uuid; the first call creates it and every
call returns that same record (its fields outside the in-place owner
roles elevation are those of the created record, and the stored record
stays that record). -/
theorem same_uuid_single_record (cfg : String) (now : Nat) (uuid : String)
    (a : CallArgs) (args : List CallArgs) (players : PStore)
    (h : lookupP players uuid = none) :
    ∃ p0,
      (runCalls cfg now uuid players (a :: args)).1.head? = some p0 ∧
      (∀ x ∈ (runCalls cfg now uuid players (a :: args)).1,
        x.core = p0.core) ∧
      (∃ q, lookupP (runCalls cfg now uuid players (a :: args)).2 uuid =
        some q ∧ q.core = p0.core) ∧
      countKey (runCalls cfg now uuid players (a :: args)).2 uuid = 1 := by
  obtain ⟨hlook, hcount⟩ := add_absent cfg now players uuid a h
  obtain ⟨h1, ⟨q, hq, hqc⟩, h3⟩ :=
    runCalls_present cfg now uuid args
      (add_or_get_player cfg now players uuid a).2
      (add_or_get_player cfg now players uuid a).1 hlook
  refine ⟨(add_or_get_player cfg now players uuid a).1, ?_, ?_,
    ⟨q, ?_, hqc⟩, ?_⟩
  · simp [runCalls]
  · intro x hx
    simp only [runCalls, List.mem_cons] at hx
    rcases hx with hx | hx
    · rw [hx]
    · exact h1 x hx
  · simpa [runCalls] using hq
  · simp only [runCalls]
    rw [h3, hcount]

/-- Witness for C2: two calls with different arguments on the same fresh
uuid. -/
theorem same_uuid_single_record_witness :
    lookupP [] "u9" = none ∧
    (∃ p0,
      (runCalls "o" 0 "u9" [] (argsDefault :: [argsGuest])).1.head? =
        some p0 ∧
      (∀ x ∈ (runCalls "o" 0 "u9" [] (argsDefault :: [argsGuest])).1,
        x.core = p0.core) ∧
      (∃ q, lookupP (runCalls "o" 0 "u9" []
          (argsDefault :: [argsGuest])).2 "u9" = some q ∧
        q.core = p0.core) ∧
      countKey (runCalls "o" 0 "u9" []
        (argsDefault :: [argsGuest])).2 "u9" = 1) :=
  ⟨rfl, same_uuid_single_record "o" 0 "u9" argsDefault [argsGuest] [] rfl⟩

/-- C3: add_or_get_planet called twice with sector "alpha", location
(0,1,2), planet 3, satellite 4 stores one record under the key
"alpha:0:1:2:3:4", returns the same record both times, and the second
call inserts nothing. -/
theorem planet_key_deterministic :
    (add_or_get_planet [] "alpha" (0, 1, 2) 3 4).2 =
      [("alpha:0:1:2:3:4", (add_or_get_planet [] "alpha" (0, 1, 2) 3 4).1)] ∧
    (add_or_get_planet (add_or_get_planet [] "alpha" (0, 1, 2) 3 4).2
        "alpha" (0, 1, 2) 3 4).1 =
      (add_or_get_planet [] "alpha" (0, 1, 2) 3 4).1 ∧
    (add_or_get_planet (add_or_get_planet [] "alpha" (0, 1, 2) 3 4).2
        "alpha" (0, 1, 2) 3 4).2 =
      (add_or_get_planet [] "alpha" (0, 1, 2) 3 4).2 := by
  decide

/-- C8: the four handshake transition handlers set their target state for
every prior connection state, unconditionally. -/
theorem transitions_unconditional (ws : WorldState) (proto : Protocol) :
    (on_protocol_version ws proto).proto.state = some State.VERSION_SENT ∧
    (on_handshake_challenge ws proto).proto.state =
      some State.HANDSHAKE_CHALLENGE_SENT ∧
    (on_handshake_response ws proto).proto.state =
      some State.HANDSHAKE_RESPONSE_RECEIVED ∧
    (on_heartbeat ws proto).proto.state =
      some State.CONNECTED_WITH_HEARTBEAT :=
  ⟨rfl, rfl, rfl, rfl⟩

/-- C9: Moderator implies Kick, Kick does not imply Moderator, Guest
implies Guest. -/
theorem role_implication :
    implies RoleName.Moderator RoleName.Kick = true ∧
    implies RoleName.Kick RoleName.Moderator = false ∧
    implies RoleName.Guest RoleName.Guest = true := by
  decide

/-- C4 (code-bug evidence): kick calls get_player_by_name without the
logged-in filter, so on a store holding only a logged-out record named
Bob it finds that record and dereferences its absent protocol — the
AttributeError of None.die() — whereas the logged-in-only lookup the
claim describes finds nothing. -/
theorem kick_finds_logged_out_player :
    kick [("u1", bobOffline)] "Admin" ["bob"] = KickOutcome.attrError ∧
    get_player_by_name [("u1", bobOffline)] "bob" true = none := by
  decide

/-- C5 counterexample: a world-start event with celestial coordinates
leaves the player store untouched — the canonical key is computed and
logged but never recorded on the bound Player, whose planet field stays
empty. -/
theorem world_start_does_not_record_location :
    (on_world_start (some ⟨"alpha", (0, 1, 2), 3, 4⟩)
        ⟨[("u1", bobOffline)], []⟩ ⟨7, some 5, some "u1"⟩).map
      (fun r => (r.1.players, r.2.2.1)) =
      some ([("u1", bobOffline)], "alpha:0:1:2:3:4") ∧
    bobOffline.planet = "" := by
  decide

/-- C5 amended: with celestial coordinates the handler get-or-creates the
planet record and logs its canonical key, leaving every Player record
unchanged; without them it marks the bound player on-ship and logs
"on ship". -/
theorem world_start_amended (ws : WorldState) (proto : Protocol)
    (c : Coordinate) (k : String) (p : Player)
    (hk : proto.playerKey = some k) (hp : lookupP ws.players k = some p) :
    (∃ r, on_world_start (some c) ws proto = some r ∧
      r.1.players = ws.players ∧
      r.2.2.1 = planetStr (add_or_get_planet ws.planets c.sector
        c.location c.planet c.satellite).1 ∧
      r.1.planets = (add_or_get_planet ws.planets c.sector c.location
        c.planet c.satellite).2) ∧
    (∃ r, on_world_start none ws proto = some r ∧
      lookupP r.1.players k = some { p with on_ship := true } ∧
      r.2.2.1 = "on ship") := by
  constructor
  · exact ⟨_, rfl, rfl, rfl, rfl⟩
  · unfold on_world_start
    rw [hk]
    refine ⟨_, rfl, ?_, rfl⟩
    rw [lookupP_updateF, hp]
    rfl

/-- Witness for C5's amended theorem at a concrete world and payload. -/
theorem world_start_amended_witness :
    (⟨7, some 5, some "u1"⟩ : Protocol).playerKey = some "u1" ∧
    lookupP [("u1", bobOffline)] "u1" = some bobOffline ∧
    ((∃ r, on_world_start (some ⟨"alpha", (0, 1, 2), 3, 4⟩)
        ⟨[("u1", bobOffline)], []⟩ ⟨7, some 5, some "u1"⟩ = some r ∧
      r.1.players = [("u1", bobOffline)] ∧
      r.2.2.1 = planetStr (add_or_get_planet [] "alpha" (0, 1, 2)
        3 4).1 ∧
      r.1.planets = (add_or_get_planet [] "alpha" (0, 1, 2) 3 4).2) ∧
    (∃ r, on_world_start none ⟨[("u1", bobOffline)], []⟩
        ⟨7, some 5, some "u1"⟩ = some r ∧
      lookupP r.1.players "u1" = some { bobOffline with on_ship := true } ∧
      r.2.2.1 = "on ship")) :=
  ⟨rfl, by decide,
    world_start_amended ⟨[("u1", bobOffline)], []⟩ ⟨7, some 5, some "u1"⟩
      ⟨"alpha", (0, 1, 2), 3, 4⟩ "u1" bobOffline rfl (by decide)⟩

/-- C6: a connect-response with success=false leaves the bound player
with logged_in=false and client_id=-1 and the protocol object (hence its
state) untouched; success=true sets logged_in=true, the payload's
client_id, the connection back-reference, and state CONNECTED. -/
theorem connect_response_effect (resp : ConnectResponse) (ws : WorldState)
    (proto : Protocol) (k : String) (p : Player)
    (hk : proto.playerKey = some k) (hp : lookupP ws.players k = some p) :
    ∃ r, on_connect_response resp ws proto = some r ∧
      (resp.success = false →
        lookupP r.ws.players k =
          some { p with logged_in := false, client_id := -1 } ∧
        r.proto = proto) ∧
      (resp.success = true →
        lookupP r.ws.players k =
          some { p with logged_in := true, client_id := resp.client_id,
                        protocol := some proto.id } ∧
        r.proto.state = some State.CONNECTED) := by
  cases hs : resp.success
  · have heq : on_connect_response resp ws proto =
        some ⟨{ ws with players := updateF ws.players k (fun p =>
                  { p with logged_in := false, client_id := -1 }) },
              proto, true⟩ := by
      unfold on_connect_response
      rw [hk, hs]
      rfl
    refine ⟨_, heq, ?_, ?_⟩
    · intro hf
      refine ⟨?_, rfl⟩
      rw [lookupP_updateF, hp]
      rfl
    · intro ht
      cases ht
  · have heq : on_connect_response resp ws proto =
        some ⟨{ ws with players := updateF ws.players k (fun p =>
                  { p with logged_in := true, client_id := resp.client_id,
                           protocol := some proto.id }) },
              { proto with state := some State.CONNECTED }, true⟩ := by
      unfold on_connect_response
      rw [hk, hs]
      rfl
    refine ⟨_, heq, ?_, ?_⟩
    · intro hf
      cases hf
    · intro ht
      refine ⟨?_, rfl⟩
      rw [lookupP_updateF, hp]
      rfl

/-- Witness for C6 at a concrete failed connect-response. -/
theorem connect_response_effect_witness :
    (⟨7, some 4, some "u1"⟩ : Protocol).playerKey = some "u1" ∧
    lookupP [("u1", bobOffline)] "u1" = some bobOffline ∧
    (∃ r, on_connect_response ⟨false, 9⟩ ⟨[("u1", bobOffline)], []⟩
        ⟨7, some 4, some "u1"⟩ = some r ∧
      ((⟨false, 9⟩ : ConnectResponse).success = false →
        lookupP r.ws.players "u1" =
          some { bobOffline with logged_in := false, client_id := -1 } ∧
        r.proto = ⟨7, some 4, some "u1"⟩) ∧
      ((⟨false, 9⟩ : ConnectResponse).success = true →
        lookupP r.ws.players "u1" =
          some { bobOffline with
                 logged_in := true, client_id := 9,
                 protocol := some 7 } ∧
        r.proto.state = some State.CONNECTED)) :=
  ⟨rfl, by decide,
    connect_response_effect ⟨false, 9⟩ ⟨[("u1", bobOffline)], []⟩
      ⟨7, some 4, some "u1"⟩ "u1" bobOffline rfl (by decide)⟩

/-- C7 counterexample: after on_client_connect for a fresh uuid, the
bound player's connection back-reference is absent, not the connection:
only a later successful connect-response sets it. -/
theorem client_connect_leaves_backref_absent :
    ((lookupP (on_client_connect "o" 0 "u1" argsDefault ⟨[], []⟩
        ⟨7, none, none⟩).ws.players "u1").map Player.protocol) =
      some none ∧
    ¬ ((lookupP (on_client_connect "o" 0 "u1" argsDefault ⟨[], []⟩
        ⟨7, none, none⟩).ws.players "u1").map Player.protocol) =
      some (some 7) := by
  decide

/-- The record returned by a creating call, spelled out. -/
theorem add_absent_ret (cfg : String) (now : Nat) (players : PStore)
    (uuid : String) (a : CallArgs)
    (h : lookupP players uuid = none) :
    (add_or_get_player cfg now players uuid a).1 =
      mkPlayer now uuid { a with roles :=
        (if uuid == cfg then some ownerRolesFinset else a.roles) } := by
  unfold add_or_get_player
  rw [h]

/-- C7 amended: for a fresh uuid and a network connect payload (no
protocol value, default logged_in=true), after on_client_connect the
bound player has logged_in=true but its connection back-reference is
absent (it is set only by a successful connect-response); after a
subsequent disconnect event of either kind (on_client_disconnect or
on_server_disconnect) the player has logged_in=false and an absent
back-reference, with uuid, name and roles unchanged. -/
theorem connect_then_disconnect (cfg : String) (now : Nat) (uuid : String)
    (a : CallArgs) (ws : WorldState) (proto : Protocol)
    (hfresh : lookupP ws.players uuid = none)
    (hproto : a.protocol = none) (hlog : a.logged_in = true) :
    ∃ p1 r p2 r' p2',
      lookupP (on_client_connect cfg now uuid a ws proto).ws.players
        uuid = some p1 ∧
      p1.logged_in = true ∧ p1.protocol = none ∧
      on_client_disconnect (on_client_connect cfg now uuid a ws proto).ws
        (on_client_connect cfg now uuid a ws proto).proto = some r ∧
      lookupP r.ws.players uuid = some p2 ∧
      p2.logged_in = false ∧ p2.protocol = none ∧
      p2.uuid = p1.uuid ∧ p2.name = p1.name ∧ p2.roles = p1.roles ∧
      on_server_disconnect (on_client_connect cfg now uuid a ws proto).ws
        (on_client_connect cfg now uuid a ws proto).proto = some r' ∧
      lookupP r'.ws.players uuid = some p2' ∧
      p2'.logged_in = false ∧ p2'.protocol = none ∧
      p2'.uuid = p1.uuid ∧ p2'.name = p1.name ∧ p2'.roles = p1.roles := by
  obtain ⟨hlook, -⟩ := add_absent cfg now ws.players uuid a hfresh
  have hret := add_absent_ret cfg now ws.players uuid a hfresh
  refine ⟨(add_or_get_player cfg now ws.players uuid a).1,
    ⟨⟨updateF (add_or_get_player cfg now ws.players uuid a).2 uuid
        (fun p => { p with protocol := none, logged_in := false }),
      ws.planets⟩, ⟨proto.id, proto.state, some uuid⟩, true⟩,
    { (add_or_get_player cfg now ws.players uuid a).1 with
        protocol := none, logged_in := false },
    ⟨⟨updateF (add_or_get_player cfg now ws.players uuid a).2 uuid
        (fun p => { p with protocol := none, logged_in := false }),
      ws.planets⟩, ⟨proto.id, proto.state, some uuid⟩, true⟩,
    { (add_or_get_player cfg now ws.players uuid a).1 with
        protocol := none, logged_in := false },
    hlook, ?_, ?_, rfl, ?_, rfl, rfl, rfl, rfl, rfl,
    rfl, ?_, rfl, rfl, rfl, rfl, rfl⟩
  · rw [hret]; exact hlog
  · rw [hret]; exact hproto
  · rw [lookupP_updateF, hlook]
    rfl
  · rw [lookupP_updateF, hlook]
    rfl

/-- Witness for C7's amended theorem at a concrete fresh connect. -/
theorem connect_then_disconnect_witness :
    lookupP ([] : PStore) "u1" = none ∧
    argsDefault.protocol = none ∧
    argsDefault.logged_in = true ∧
    (∃ p1 r p2 r' p2',
      lookupP (on_client_connect "o" 0 "u1" argsDefault ⟨[], []⟩
        ⟨7, none, none⟩).ws.players "u1" = some p1 ∧
      p1.logged_in = true ∧ p1.protocol = none ∧
      on_client_disconnect
        (on_client_connect "o" 0 "u1" argsDefault ⟨[], []⟩
          ⟨7, none, none⟩).ws
        (on_client_connect "o" 0 "u1" argsDefault ⟨[], []⟩
          ⟨7, none, none⟩).proto = some r ∧
      lookupP r.ws.players "u1" = some p2 ∧
      p2.logged_in = false ∧ p2.protocol = none ∧
      p2.uuid = p1.uuid ∧ p2.name = p1.name ∧ p2.roles = p1.roles ∧
      on_server_disconnect
        (on_client_connect "o" 0 "u1" argsDefault ⟨[], []⟩
          ⟨7, none, none⟩).ws
        (on_client_connect "o" 0 "u1" argsDefault ⟨[], []⟩
          ⟨7, none, none⟩).proto = some r' ∧
      lookupP r'.ws.players "u1" = some p2' ∧
      p2'.logged_in = false ∧ p2'.protocol = none ∧
      p2'.uuid = p1.uuid ∧ p2'.name = p1.name ∧ p2'.roles = p1.roles) :=
  ⟨rfl, rfl, rfl,
    connect_then_disconnect "o" 0 "u1" argsDefault ⟨[], []⟩
      ⟨7, none, none⟩ rfl rfl rfl⟩

/-- C10: every event handler of the registry that completes returns True,
for every input payload and connection state; the Option.all conjuncts
range over the handlers whose Python bodies can raise before returning. -/
theorem handlers_return_true (ws : WorldState) (proto : Protocol)
    (resp : ConnectResponse) (cfg : String) (now : Nat) (uuid : String)
    (a : CallArgs) (cel : Option Coordinate) :
    (on_protocol_version ws proto).ok = true ∧
    (on_handshake_challenge ws proto).ok = true ∧
    (on_handshake_response ws proto).ok = true ∧
    Option.all (fun r => r.ok) (on_connect_response resp ws proto) =
      true ∧
    (on_client_connect cfg now uuid a ws proto).ok = true ∧
    Option.all (fun r => r.ok) (on_client_disconnect ws proto) = true ∧
    Option.all (fun r => r.ok) (on_server_disconnect ws proto) = true ∧
    (on_warp_command ws proto).ok = true ∧
    Option.all (fun r => r.2.2.2) (on_world_start cel ws proto) = true ∧
    (on_heartbeat ws proto).ok = true := by
  refine ⟨rfl, rfl, rfl, ?_, rfl, ?_, ?_, rfl, ?_, rfl⟩
  · unfold on_connect_response
    cases proto.playerKey
    · rfl
    · cases resp.success <;> simp [Option.all]
  · unfold on_client_disconnect
    cases proto.playerKey <;> rfl
  · unfold on_server_disconnect
    cases proto.playerKey <;> rfl
  · unfold on_world_start
    cases cel
    · cases proto.playerKey <;> rfl
    · rfl

end StarryPy3k
